/-
Verification of the AVOXI billing-analysis pipeline
(billing_analysis.py) against its specification.

The Python script is a linear pipeline over an in-memory collection of
named tables loaded from a spreadsheet.  We embed the table collection as
a structure of typed row lists, numeric cells as exact rationals (the
script uses binary floating point; every concrete value checked below is
exactly representable at the precision the formatting rounds to, so the
rational model agrees with the float behaviour on all inputs used here),
and each reporting method as a pure function that returns both its
printed output and the table collection as the method leaves it.
Fallible steps (pandas lookups that index into a possibly-empty
selection, the per-vendor division that would divide by a zero total)
return Option, with none modelling the raised error.
-/
import Mathlib

/- Batteries marks the rational-number operations irreducible, which
blocks the evaluation of concrete instances of the pipeline below; the
development needs them to compute. -/
attribute [local semireducible] Rat.add Rat.mul Rat.sub Rat.inv Rat.ofScientific

namespace Billing

/-! ## Data model

One row structure per sheet consumed by the script (spec section 3).
Field names follow the spreadsheet columns; the Python column written
as GM% becomes the field gm. -/

/-- A row of the Summary sheet: key/value pairs looked up by Metric. -/
structure SummaryRow where
  metric : String
  value : ℚ
deriving DecidableEq

/-- A row of the Client Breakdown sheet. -/
structure ClientRow where
  customer : String
  revenue : ℚ
  gm : ℚ
  calls : ℤ
deriving DecidableEq

/-- A row of the Vendor Costs sheet (column Total Cost becomes totalCost). -/
structure VendorRow where
  vendor : String
  totalCost : ℚ
deriving DecidableEq

/-- A row of the Low Margin Clients sheet. -/
structure LMClientRow where
  customer : String
  gm : ℚ
  revenue : ℚ
deriving DecidableEq

/-- A row of the Low Margin Countries sheet. -/
structure LMCountryRow where
  country : String
  gm : ℚ
  revenue : ℚ
deriving DecidableEq

/-- A row of the Country Breakdown sheet. -/
structure CountryRow where
  country : String
  revenue : ℚ
  gm : ℚ
deriving DecidableEq

/-- A row of the Carrier Breakdown sheet (column Number Type becomes numberType). -/
structure CarrierRow where
  numberType : String
  revenue : ℚ
  cost : ℚ
  gm : ℚ
deriving DecidableEq

/-- The loaded table collection: the dictionary self.data built by
load_data, with the seven sheets the script consumes. -/
structure Data where
  summary : List SummaryRow
  clientBreakdown : List ClientRow
  vendorCosts : List VendorRow
  lowMarginClients : List LMClientRow
  lowMarginCountries : List LMCountryRow
  countryBreakdown : List CountryRow
  carrierBreakdown : List CarrierRow
deriving DecidableEq

/-! ## Number formatting

Models of the Python format specifiers used by the print statements:
comma-grouped fixed-point currency (:,.2f), percentages (:.2%, :.1%) and
plain one-decimal fixed point (:.1f).  Values are scaled, rounded to the
displayed precision (half away from zero; every concrete value proved
about below is exact at that precision, so the tie-breaking rule is
never exercised and the model agrees with Python round-half-even), and
rendered digit by digit.  The script only ever formats nonnegative
quantities; the model covers that case. -/

/-- Decimal digits of a natural number, most significant first. -/
def natDigits (n : Nat) : List Char := Nat.toDigits 10 n

/-- Insert a thousands separator after every third digit.  The input and
output digit lists are least-significant-first; the index i counts digits
already emitted. -/
def groupRev : List Char → Nat → List Char
  | [], _ => []
  | [c], _ => [c]
  | c :: cs, i =>
    if i % 3 = 2 then c :: ',' :: groupRev cs (i + 1)
    else c :: groupRev cs (i + 1)

/-- Render a natural number without separators. -/
def fmtPlain (n : Nat) : String := String.mk (natDigits n)

/-- Render a natural number with comma thousands separators, as the
Python comma flag does for the integer part. -/
def fmtGrouped (n : Nat) : String :=
  String.mk (groupRev (natDigits n).reverse 0).reverse

/-- Render a two-digit fractional part, left-padded with a zero. -/
def fmtFrac2 (n : Nat) : String :=
  String.mk (if n < 10 then '0' :: natDigits n else natDigits n)

/-- Scale a nonnegative rational by s and round to the nearest integer
(ties away from zero). -/
def roundScaled (q : ℚ) (s : Nat) : Nat :=
  (Rat.floor (q * (s : ℚ) + 1 / 2)).toNat

/-- The Python format :,.2f on a nonnegative value: comma-grouped integer
part, two decimals. -/
def fmtCurrency2 (q : ℚ) : String :=
  let c := roundScaled q 100
  fmtGrouped (c / 100) ++ "." ++ fmtFrac2 (c % 100)

/-- The Python format :.2% on a nonnegative value: value times 100 with
two decimals, percent sign, no grouping. -/
def fmtPercent2 (q : ℚ) : String :=
  let c := roundScaled q 10000
  fmtPlain (c / 100) ++ "." ++ fmtFrac2 (c % 100) ++ "%"

/-- The Python format :.1% on a nonnegative value. -/
def fmtPercent1 (q : ℚ) : String :=
  let c := roundScaled q 1000
  fmtPlain (c / 10) ++ "." ++ fmtPlain (c % 10) ++ "%"

/-- The Python format :.1f on a nonnegative value. -/
def fmtFixed1 (q : ℚ) : String :=
  let c := roundScaled q 10
  fmtPlain (c / 10) ++ "." ++ fmtPlain (c % 10)

/-! ## Whitespace normalisation

The print statements pad fields into aligned columns.  The spec quotes
lines with the alignment padding collapsed, so we compare printed lines
up to leading/trailing spaces and runs of interior spaces. -/

/-- Collapse each run of spaces to a single space.  The flag records
whether the previous character was a space. -/
def squeezeSpaces : Bool → List Char → List Char
  | _, [] => []
  | inRun, c :: cs =>
    if c = ' ' then
      if inRun then squeezeSpaces true cs
      else ' ' :: squeezeSpaces true cs
    else c :: squeezeSpaces false cs

/-- Drop leading and trailing spaces and collapse interior runs of
spaces, so that column-aligned output can be compared with the
spec-quoted text. -/
def normSpaces (s : String) : String :=
  String.mk
    ((((squeezeSpaces true s.toList).reverse.dropWhile (fun c => c = ' ')).reverse))

/-- A run of n copies of the string s, as the Python expression s * n. -/
def pyRep (s : String) (n : Nat) : String :=
  String.join (List.replicate n s)

/-- Python str.center(width) with space fill: total padding split in
half, with the extra space on the left exactly when both the padding and
the width are odd (CPython rule: left = marg / 2 + (marg and width and 1)). -/
def pyCenter (s : String) (width : Nat) : String :=
  if width ≤ s.length then s
  else
    let marg := width - s.length
    let left := marg / 2 + (marg % 2) * (width % 2)
    pyRep " " left ++ s ++ pyRep " " (marg - left)

/-- The sixty-equals-signs separator bar the script prints around every
section heading (the Python expression with 60 repetitions of the equals
sign). -/
def eqBar : String := pyRep "=" 60

/-! ## Summary reporter (generate_summary_report, lines 39 to 66)

A pandas lookup of the shape
summary.loc[summary[Metric] == m, Value].values[0] selects the rows
whose Metric cell equals m, projects the Value column, and indexes the
first element of the resulting array: on an empty selection the
indexing raises, and on a selection with several rows it silently
yields the first one.  lookupMetric returns none exactly when the
indexing would raise. -/

/-- The value of the first Summary row whose Metric equals m, or none
when no row matches (the raised IndexError). -/
def lookupMetric (summary : List SummaryRow) (m : String) : Option ℚ :=
  ((summary.filter (fun r => r.metric == m)).head?).map (fun r => r.value)

/-- The dictionary generate_summary_report returns:
current_revenue, current_margin, projected_margin. -/
structure SummaryScalars where
  current_revenue : ℚ
  current_margin : ℚ
  projected_margin : ℚ
deriving DecidableEq

/-- generate_summary_report: five metric lookups on the Summary sheet,
the printed executive-summary lines (column alignment padding kept; the
model of each format specifier is above), and the returned scalars.
The second component of the result is self.data as the method leaves
it: the method body only reads the collection. -/
def generate_summary_report (d : Data) :
    Option ((List String × SummaryScalars) × Data) :=
  (lookupMetric d.summary "Total Revenue").bind fun total_revenue =>
  (lookupMetric d.summary "Total Cost").bind fun total_cost =>
  (lookupMetric d.summary "Gross Margin % (Current)").bind fun current_margin =>
  (lookupMetric d.summary "Total Revenue (After Increase)").bind fun projected_revenue =>
  (lookupMetric d.summary "Gross Margin % (After Increase)").bind fun projected_margin =>
  some ((["", eqBar, "EXECUTIVE SUMMARY", eqBar,
     "", "Current Performance:",
     "  Revenue:       $" ++ fmtCurrency2 total_revenue,
     "  Cost:          $" ++ fmtCurrency2 total_cost,
     "  Gross Margin:  " ++ fmtPercent2 current_margin,
     "", "Projected Performance (Mobile +7%, Landline +20%):",
     "  Revenue:       $" ++ fmtCurrency2 projected_revenue,
     "  Gross Margin:  " ++ fmtPercent2 projected_margin,
     "  Improvement:   +" ++ fmtPercent2 (projected_margin - current_margin)],
    ⟨total_revenue, current_margin, projected_margin⟩), d)

/-! ## Descending sort (pandas sort_values with ascending False)

For a single numeric key pandas computes an ascending argsort of the
column and reverses the resulting indexer when ascending is False
(pandas nargsort).  On the small tables this script sorts, the
underlying numpy argsort falls back to a stable binary insertion sort,
so the ascending pass keeps tied keys in input order and the descending
result is the reversal of a stable ascending sort.  That is how the
sort is modelled here. -/

/-- Ascending comparison on a rational-valued key. -/
def keyLE {α : Type} (key : α → ℚ) (a b : α) : Prop := key a ≤ key b

instance {α : Type} (key : α → ℚ) : DecidableRel (keyLE key) :=
  fun a b => inferInstanceAs (Decidable (key a ≤ key b))

instance {α : Type} (key : α → ℚ) : IsTotal α (keyLE key) :=
  ⟨fun a b => le_total (key a) (key b)⟩

instance {α : Type} (key : α → ℚ) : IsTrans α (keyLE key) :=
  ⟨fun _ _ _ h1 h2 => le_trans h1 h2⟩

/-- pandas df.sort_values(column, ascending=False): the reversal of a
stable ascending sort by the key. -/
def sort_values {α : Type} (key : α → ℚ) (l : List α) : List α :=
  (List.insertionSort (keyLE key) l).reverse

/-! ## Top-clients reporter (analyze_top_clients, lines 68 to 82) -/

/-- The rows analyze_top_clients selects: the Client Breakdown rows
sorted by Revenue descending (on a copy of the table), first n taken
(pandas head).  -/
def topClientsRows (clients : List ClientRow) (n : Nat) : List ClientRow :=
  (sort_values (fun r => r.revenue) clients).take n

/-- One printed client row (column alignment padding elided). -/
def clientLine (r : ClientRow) : String :=
  r.customer ++ " | Rev: $" ++ fmtCurrency2 r.revenue ++ " | Margin: "
    ++ fmtPercent1 r.gm ++ " | Calls: " ++ toString r.calls

/-- analyze_top_clients: header lines, one line per selected row, and
the selected subset as return value.  The table is copied before
sorting; self.data is left unchanged. -/
def analyze_top_clients (d : Data) (n : Nat) :
    (List String × List ClientRow) × Data :=
  let clients := d.clientBreakdown
  let top := topClientsRows clients n
  ((["", eqBar, "TOP " ++ fmtPlain n ++ " CLIENTS BY REVENUE", eqBar]
      ++ top.map clientLine, top), d)

/-! ## Vendor efficiency reporter (analyze_vendor_efficiency, lines 84 to 98) -/

/-- The grand total cost across all vendors (the pandas column sum). -/
def vendorTotalCost (vendors : List VendorRow) : ℚ :=
  (vendors.map (fun r => r.totalCost)).sum

/-- The per-vendor percentage shares the loop computes: each cost
divided by the grand total, times 100, in table order. -/
def vendorShares (vendors : List VendorRow) : List ℚ :=
  vendors.map (fun r => r.totalCost / vendorTotalCost vendors * 100)

/-- One printed vendor row (column alignment padding elided). -/
def vendorLine (r : VendorRow) (total : ℚ) : String :=
  r.vendor ++ " | Cost: $" ++ fmtCurrency2 r.totalCost ++ " | Share: "
    ++ fmtFixed1 (r.totalCost / total * 100) ++ "%"

/-- The per-vendor lines of the loop.  The division by the grand total
inside the loop body is modelled as fallible: a loop iteration with a
zero total is the division-by-zero hazard and yields none.  When the
table is empty the loop body never runs and no division happens. -/
def vendorLines (vendors : List VendorRow) : Option (List String) :=
  let total := vendorTotalCost vendors
  vendors.mapM (fun r => if total = 0 then none else some (vendorLine r total))

/-- analyze_vendor_efficiency: header lines, the loop output, and the
input table returned unchanged. -/
def analyze_vendor_efficiency (d : Data) :
    Option ((List String × List VendorRow) × Data) :=
  (vendorLines d.vendorCosts).bind fun body =>
  some ((["", eqBar, "VENDOR COST ANALYSIS", eqBar] ++ body, d.vendorCosts), d)

/-! ## Optimization opportunity reporter
(identify_optimization_opportunities, lines 100 to 121) -/

/-- One printed low-margin client row (alignment padding elided). -/
def lmClientLine (r : LMClientRow) : String :=
  "  " ++ r.customer ++ " | Margin: " ++ fmtPercent1 r.gm
    ++ " | Revenue: $" ++ fmtCurrency2 r.revenue

/-- One printed low-margin country row (alignment padding elided). -/
def lmCountryLine (r : LMCountryRow) : String :=
  "  " ++ r.country ++ " | Margin: " ++ fmtPercent1 r.gm
    ++ " | Revenue: $" ++ fmtCurrency2 r.revenue

/-- The Low Margin Clients rows the loop prints: exactly those whose
GM% passes the strict threshold test of line 111. -/
def printedLowMarginClients (rows : List LMClientRow) : List LMClientRow :=
  rows.filter (fun r => r.gm < 0.35)

/-- The Low Margin Countries rows the loop prints (line 117). -/
def printedLowMarginCountries (rows : List LMCountryRow) : List LMCountryRow :=
  rows.filter (fun r => r.gm < 0.35)

/-- identify_optimization_opportunities: headers, the two filtered
print loops, and the return value, which is the pair of original
unfiltered tables (line 121 returns the tables bound at lines 102 and
103, not the filtered views). -/
def identify_optimization_opportunities (d : Data) :
    (List String × (List LMClientRow × List LMCountryRow)) × Data :=
  ((["", eqBar, "OPTIMIZATION OPPORTUNITIES", eqBar,
      "", "Low Margin Clients (< 35%):"]
      ++ (printedLowMarginClients d.lowMarginClients).map lmClientLine
      ++ ["", "Low Margin Countries (< 35%):"]
      ++ (printedLowMarginCountries d.lowMarginCountries).map lmCountryLine,
    (d.lowMarginClients, d.lowMarginCountries)), d)

/-! ## Visualization renderer (create_visualizations, lines 123 to 285)

The renderer is modelled by its externally observable effects: the
idempotent creation of the output directory (Path.mkdir with exist_ok)
and the list of image files it saves, in save order.  The source
contains exactly four savefig calls (lines 171, 212, 235 and 282).
Chart pixel content is not modelled; of the data accesses the figures
make, the two Summary lookups of lines 131 and 132 are the fallible
ones (the same values-indexing pattern as the summary reporter), so
the model binds them and fails when they fail.  The source quotes the
directory name in the completion message; those quote characters are
elided here. -/

/-- The filesystem effect of create_visualizations. -/
structure VizOutput where
  dirCreated : Bool
  files : List String
  printed : List String
deriving DecidableEq

/-- The four fixed file names savefig receives, relative to the output
directory, in save order. -/
def vizFileNames : List String :=
  ["/01_revenue_margin_analysis.png",
   "/02_country_performance.png",
   "/03_vendor_costs.png",
   "/04_carrier_analysis.png"]

/-- create_visualizations: directory creation, the two fallible Summary
lookups, and the four saved files. -/
def create_visualizations (d : Data) (output_dir : String) :
    Option (VizOutput × Data) :=
  (lookupMetric d.summary "Gross Margin % (Current)").bind fun _current_margin =>
  (lookupMetric d.summary "Gross Margin % (After Increase)").bind fun _projected_margin =>
  some (⟨true, vizFileNames.map (fun f => output_dir ++ f),
         ["", "‚úì All visualizations saved to " ++ output_dir ++ "/ directory"]⟩, d)

/-! ## Orchestrator (run_full_analysis, lines 287 to 322) -/

/-- The opening banner (the block-character lines of lines 289 to 293;
the source file stores the block character as a three-character
sequence, reproduced as such). -/
def bannerLines : List String :=
  ["", pyRep "‚ñà" 60,
   "‚ñà‚ñà" ++ pyRep " " 56 ++ "‚ñà‚ñà",
   "‚ñà‚ñà" ++ pyCenter "  AVOXI BILLING ANALYSIS - COMPREHENSIVE REPORT  " 56 ++ "‚ñà‚ñà",
   "‚ñà‚ñà" ++ pyRep " " 56 ++ "‚ñà‚ñà",
   pyRep "‚ñà" 60]

/-- The hard-coded recommendations block of lines 303 to 318: heading
plus four numbered statements, all literal text with no dependence on
the loaded data. -/
def recommendationsBlock : List String :=
  ["", eqBar, "KEY RECOMMENDATIONS", eqBar,
   "", "1. ‚úì Implement pricing increase: Mobile +7%, Landline +20%",
   "   ‚Üí Achieves 46.37% margin (exceeds 45% target)",
   "", "2. ‚úì Optimize routing for short-duration calls",
   "   ‚Üí Route to per-second vendors (Vendor 2) when possible",
   "", "3. ‚úì Review pricing for low-margin segments:",
   "   ‚Üí Countries: United States, Chile, Australia",
   "   ‚Üí Clients: Review those below 35% margin threshold",
   "", "4. ‚úì Monitor vendor concentration",
   "   ‚Üí Top 2 vendors account for ~74% of costs",
   "   ‚Üí Consider diversification strategy"]

/-- The closing lines of lines 320 to 322. -/
def closingLines : List String :=
  ["", eqBar, "Analysis completed successfully!", eqBar, ""]

/-- run_full_analysis: the five steps in the fixed source order
(summary, top clients, vendor, optimization, visualizations), then the
recommendations block and the closing banner.  The collection is
threaded through each step as the step leaves it. -/
def run_full_analysis (d : Data) : Option (List String × Data) :=
  (generate_summary_report d).bind fun s =>
  let t := analyze_top_clients s.2 10
  (analyze_vendor_efficiency t.2).bind fun v =>
  let o := identify_optimization_opportunities v.2
  (create_visualizations o.2 "visualizations").bind fun z =>
  some (bannerLines ++ s.1.1 ++ t.1.1 ++ v.1.1 ++ o.1.1 ++ z.1.printed
    ++ recommendationsBlock ++ closingLines, z.2)

/-! ## Per-step output observations

Projections of each step of the pipeline to its printed lines, used to
state what the orchestrator output is composed of. -/

/-- The lines the summary reporter prints (empty when it fails). -/
def summaryOut (d : Data) : List String :=
  ((generate_summary_report d).map (fun p => p.1.1)).getD []

/-- The lines the top-clients reporter prints at the default count 10. -/
def topOut (d : Data) : List String := (analyze_top_clients d 10).1.1

/-- The lines the vendor reporter prints (empty when it fails). -/
def vendorOut (d : Data) : List String :=
  ((analyze_vendor_efficiency d).map (fun p => p.1.1)).getD []

/-- The lines the optimization reporter prints. -/
def optOut (d : Data) : List String :=
  (identify_optimization_opportunities d).1.1

/-- The lines the renderer prints (empty when it fails). -/
def vizOut (d : Data) : List String :=
  ((create_visualizations d "visualizations").map (fun p => p.1.printed)).getD []

/-- A table collection with the given Summary sheet and every other
sheet empty, used to instantiate theorems on concrete inputs. -/
def summaryOnly (rows : List SummaryRow) : Data :=
  ⟨rows, [], [], [], [], [], []⟩

/-- The concrete Summary sheet of the specification example: the five
metrics consumed by the summary reporter with the values it quotes. -/
def sampleSummary : List SummaryRow :=
  [⟨"Total Revenue", 1000000⟩, ⟨"Total Cost", 600000⟩,
   ⟨"Gross Margin % (Current)", 0.40⟩,
   ⟨"Total Revenue (After Increase)", 1100000⟩,
   ⟨"Gross Margin % (After Increase)", 0.4637⟩]

/-- A second, different concrete Summary sheet on which every pipeline
step also succeeds. -/
def sampleSummaryB : List SummaryRow :=
  [⟨"Total Revenue", 2000⟩, ⟨"Total Cost", 1500⟩,
   ⟨"Gross Margin % (Current)", 0.25⟩,
   ⟨"Total Revenue (After Increase)", 2200⟩,
   ⟨"Gross Margin % (After Increase)", 0.3182⟩]

/-- The printed lines of the summary reporter on the first sample
collection, normalised for column alignment. -/
def sampleSummaryNorm : List String :=
  ((generate_summary_report (summaryOnly sampleSummary)).map
    (fun p => p.1.1.map normSpaces)).getD []

/-- The renderer result on the first sample collection. -/
def vizSample : VizOutput × Data :=
  (create_visualizations (summaryOnly sampleSummary) "visualizations").getD
    (⟨false, [], []⟩, summaryOnly [])

/-- The orchestrator result on the first sample collection. -/
def runSampleA : List String × Data :=
  (run_full_analysis (summaryOnly sampleSummary)).getD ([], summaryOnly sampleSummary)

/-- The orchestrator result on the second sample collection. -/
def runSampleB : List String × Data :=
  (run_full_analysis (summaryOnly sampleSummaryB)).getD ([], summaryOnly sampleSummaryB)

/-! ## The collection is read-only

Each method body only reads self.data: the sorts return fresh frames
(pandas sort_values without inplace), the one explicit copy is sorted
in place of the original, and no method assigns to self.data.  In the
embedding this surfaces as each step returning the collection it
received. -/

/-- The summary reporter leaves the collection unchanged. -/
theorem generate_summary_report_data (d : Data)
    (p : (List String × SummaryScalars) × Data)
    (h : generate_summary_report d = some p) : p.2 = d := by
  simp only [generate_summary_report, Option.bind_eq_some] at h
  obtain ⟨a, _, h⟩ := h
  obtain ⟨b, _, h⟩ := h
  obtain ⟨c, _, h⟩ := h
  obtain ⟨e, _, h⟩ := h
  obtain ⟨f, _, h⟩ := h
  cases h
  rfl

/-- The vendor reporter leaves the collection unchanged. -/
theorem analyze_vendor_efficiency_data (d : Data)
    (p : (List String × List VendorRow) × Data)
    (h : analyze_vendor_efficiency d = some p) : p.2 = d := by
  simp only [analyze_vendor_efficiency, Option.bind_eq_some] at h
  obtain ⟨a, _, h⟩ := h
  cases h
  rfl

/-- The renderer leaves the collection unchanged. -/
theorem create_visualizations_data (d : Data) (dir : String)
    (p : VizOutput × Data)
    (h : create_visualizations d dir = some p) : p.2 = d := by
  simp only [create_visualizations, Option.bind_eq_some] at h
  obtain ⟨a, _, h⟩ := h
  obtain ⟨b, _, h⟩ := h
  cases h
  rfl

/-- The orchestrator leaves the collection unchanged. -/
theorem run_full_analysis_data (d : Data) (p : List String × Data)
    (h : run_full_analysis d = some p) : p.2 = d := by
  simp only [run_full_analysis, Option.bind_eq_some] at h
  obtain ⟨s, hs, h⟩ := h
  obtain ⟨v, hv, h⟩ := h
  obtain ⟨z, hz, h⟩ := h
  cases h
  have h1 := generate_summary_report_data d s hs
  have h2 := analyze_vendor_efficiency_data _ v hv
  have h3 := create_visualizations_data _ _ z hz
  simp only [analyze_top_clients] at h2
  simp only [identify_optimization_opportunities] at h3
  simp [h3, h2, h1]

/-! ## Claim theorems -/

/-- C5: for every non-empty Vendor Costs table with positive total
cost, the per-vendor percentage shares (each Total Cost divided by the
grand total, times 100) sum to exactly 100 in exact arithmetic. -/
theorem vendor_shares_sum_100 (vendors : List VendorRow)
    (hne : vendors ≠ []) (hpos : 0 < vendorTotalCost vendors) :
    (vendorShares vendors).sum = 100 := by
  have hT : vendorTotalCost vendors ≠ 0 := ne_of_gt hpos
  have key : ∀ (l : List VendorRow) (T : ℚ),
      (l.map (fun r => r.totalCost / T * 100)).sum
        = (l.map (fun r => r.totalCost)).sum / T * 100 := by
    intro l T
    induction l with
    | nil => simp
    | cons a t ih => simp [ih, add_div, add_mul]
  have hsum : (vendors.map (fun r => r.totalCost)).sum = vendorTotalCost vendors := rfl
  rw [vendorShares, key, hsum, div_self hT, one_mul]

/-- Witness for C5 at a concrete two-vendor table. -/
theorem vendor_shares_sum_100_witness :
    (([⟨"Vendor 1", 300⟩, ⟨"Vendor 2", 100⟩] : List VendorRow) ≠ [] ∧
      0 < vendorTotalCost [⟨"Vendor 1", 300⟩, ⟨"Vendor 2", 100⟩]) ∧
    (vendorShares [⟨"Vendor 1", 300⟩, ⟨"Vendor 2", 100⟩]).sum = 100 :=
  ⟨⟨by decide, by decide⟩,
    vendor_shares_sum_100 [⟨"Vendor 1", 300⟩, ⟨"Vendor 2", 100⟩] (by decide) (by decide)⟩

/-- C10: on a Vendor Costs table with zero rows the vendor reporter
completes without error and prints no per-vendor lines; the loop body,
and with it the division by the zero grand total, never runs. -/
theorem analyze_vendor_efficiency_empty (d : Data) (h : d.vendorCosts = []) :
    vendorLines d.vendorCosts = some [] ∧
    analyze_vendor_efficiency d
      = some ((["", eqBar, "VENDOR COST ANALYSIS", eqBar], []), d) := by
  rw [h]
  exact ⟨rfl, by rw [analyze_vendor_efficiency, h]; rfl⟩

/-- Witness for C10 at a concrete collection with an empty Vendor
Costs sheet. -/
theorem analyze_vendor_efficiency_empty_witness :
    vendorLines (summaryOnly []).vendorCosts = some [] ∧
    analyze_vendor_efficiency (summaryOnly [])
      = some ((["", eqBar, "VENDOR COST ANALYSIS", eqBar], []), summaryOnly []) :=
  analyze_vendor_efficiency_empty (summaryOnly []) rfl

/-- C4: the optimization reporter prints exactly the rows whose GM% is
strictly below 0.35, a row at exactly 0.35 is not printed, and the two
returned values are the original unfiltered tables. -/
theorem identify_optimization_spec (d : Data) :
    ((identify_optimization_opportunities d).1.2
        = (d.lowMarginClients, d.lowMarginCountries)) ∧
    (∀ r : LMClientRow, r ∈ printedLowMarginClients d.lowMarginClients
        ↔ (r ∈ d.lowMarginClients ∧ r.gm < 0.35)) ∧
    (∀ r : LMCountryRow, r ∈ printedLowMarginCountries d.lowMarginCountries
        ↔ (r ∈ d.lowMarginCountries ∧ r.gm < 0.35)) ∧
    (∀ r : LMClientRow, r.gm = 0.35 → r ∉ printedLowMarginClients d.lowMarginClients) ∧
    (∀ r : LMCountryRow, r.gm = 0.35 → r ∉ printedLowMarginCountries d.lowMarginCountries) := by
  refine ⟨rfl, ?_, ?_, ?_, ?_⟩
  · intro r
    simp [printedLowMarginClients, List.mem_filter]
  · intro r
    simp [printedLowMarginCountries, List.mem_filter]
  · intro r hgm hmem
    rw [printedLowMarginClients, List.mem_filter] at hmem
    have hlt := of_decide_eq_true hmem.2
    rw [hgm] at hlt
    exact lt_irrefl _ hlt
  · intro r hgm hmem
    rw [printedLowMarginCountries, List.mem_filter] at hmem
    have hlt := of_decide_eq_true hmem.2
    rw [hgm] at hlt
    exact lt_irrefl _ hlt

/-- Witness for C4 at a concrete table: the row at margin 0.30 is
printed, the row at exactly 0.35 is not. -/
theorem identify_optimization_spec_witness :
    ((⟨"Acme", 0.30, 100⟩ : LMClientRow)
        ∈ printedLowMarginClients [⟨"Acme", 0.30, 100⟩, ⟨"Edge", 0.35, 50⟩]) ∧
    ((⟨"Edge", 0.35, 50⟩ : LMClientRow)
        ∉ printedLowMarginClients [⟨"Acme", 0.30, 100⟩, ⟨"Edge", 0.35, 50⟩]) :=
  ⟨((identify_optimization_spec
        ⟨[], [], [], [⟨"Acme", 0.30, 100⟩, ⟨"Edge", 0.35, 50⟩], [], [], []⟩).2.1
      ⟨"Acme", 0.30, 100⟩).mpr ⟨by decide, by decide⟩,
    (identify_optimization_spec
        ⟨[], [], [], [⟨"Acme", 0.30, 100⟩, ⟨"Edge", 0.35, 50⟩], [], [], []⟩).2.2.2.1
      ⟨"Edge", 0.35, 50⟩ rfl⟩

/-- C2 counterexample: a Summary sheet in which two rows carry the
Metric string of the lookup.  The selection has two rows, yet the
lookup does not fail: it silently returns the first Value.  The claim
that a lookup matching more than one row does not return a value is
false of the code. -/
theorem summary_lookup_duplicate_returns_first :
    (([⟨"Total Revenue", 1000000⟩, ⟨"Total Revenue", 2000000⟩] : List SummaryRow).filter
        (fun r => r.metric == "Total Revenue")).length = 2 ∧
    lookupMetric [⟨"Total Revenue", 1000000⟩, ⟨"Total Revenue", 2000000⟩] "Total Revenue"
      = some 1000000 := by
  decide

/-- C2 amended: a metric lookup fails exactly when no Summary row
matches the Metric string; when one or more rows match it returns the
Value of the first matching row (extra matching rows are ignored, not
rejected). -/
theorem lookupMetric_first_match (s : List SummaryRow) (m : String) :
    (lookupMetric s m = none ↔ ∀ r ∈ s, r.metric ≠ m) ∧
    (∀ (r : SummaryRow) (rest : List SummaryRow),
        s.filter (fun x => x.metric == m) = r :: rest →
        lookupMetric s m = some r.value) := by
  constructor
  · simp [lookupMetric, List.head?_eq_none_iff, List.filter_eq_nil_iff]
  · intro r rest hf
    simp [lookupMetric, hf]

/-- Witness for C2 amended at a concrete one-row sheet. -/
theorem lookupMetric_first_match_witness :
    (([⟨"Total Revenue", 5⟩] : List SummaryRow).filter
        (fun x => x.metric == "Total Revenue") = [⟨"Total Revenue", 5⟩]) ∧
    lookupMetric [⟨"Total Revenue", 5⟩] "Total Revenue" = some 5 :=
  ⟨by decide,
    (lookupMetric_first_match [⟨"Total Revenue", 5⟩] "Total Revenue").2
      ⟨"Total Revenue", 5⟩ [] (by decide)⟩

/-- C3: the top-clients selection always returns exactly
min n (number of rows) rows sorted by Revenue non-increasing, and on a
three-row table with pairwise-distinct revenues a request for the top
two returns the two highest-revenue rows in descending order whatever
order the rows were loaded in. -/
theorem analyze_top_clients_spec :
    (∀ (clients : List ClientRow) (n : Nat),
        (topClientsRows clients n).length = min n clients.length ∧
        List.Sorted (fun a b : ClientRow => b.revenue ≤ a.revenue)
          (topClientsRows clients n)) ∧
    (∀ (a b c : ClientRow) (clients : List ClientRow),
        b.revenue < a.revenue → c.revenue < b.revenue →
        (clients = [a, b, c] ∨ clients = [a, c, b] ∨ clients = [b, a, c] ∨
         clients = [b, c, a] ∨ clients = [c, a, b] ∨ clients = [c, b, a]) →
        topClientsRows clients 2 = [a, b]) := by
  constructor
  · intro clients n
    constructor
    · rw [topClientsRows, sort_values, List.length_take, List.length_reverse,
        (List.perm_insertionSort _ clients).length_eq]
    · have hs := List.sorted_insertionSort
        (keyLE (fun r : ClientRow => r.revenue)) clients
      have hrev : List.Pairwise (fun a b : ClientRow => b.revenue ≤ a.revenue)
          (List.insertionSort (keyLE (fun r : ClientRow => r.revenue)) clients).reverse :=
        List.pairwise_reverse.mpr hs
      exact List.Pairwise.sublist (List.take_sublist _ _) hrev
  · intro a b c clients hab hbc hperm
    have hba : keyLE (fun r : ClientRow => r.revenue) b a := le_of_lt hab
    have hcb : keyLE (fun r : ClientRow => r.revenue) c b := le_of_lt hbc
    have hca : keyLE (fun r : ClientRow => r.revenue) c a :=
      le_of_lt (lt_trans hbc hab)
    have hnab : ¬ keyLE (fun r : ClientRow => r.revenue) a b := not_le.mpr hab
    have hnbc : ¬ keyLE (fun r : ClientRow => r.revenue) b c := not_le.mpr hbc
    have hnac : ¬ keyLE (fun r : ClientRow => r.revenue) a c :=
      not_le.mpr (lt_trans hbc hab)
    rcases hperm with h | h | h | h | h | h <;> subst h <;>
      simp [topClientsRows, sort_values, List.insertionSort, List.orderedInsert,
        hba, hcb, hca, hnab, hnbc, hnac]

/-- Witness for C3 at a concrete three-row table loaded in neither
sorted nor reverse-sorted order. -/
theorem analyze_top_clients_spec_witness :
    topClientsRows [⟨"C", 50, 0.5, 1⟩, ⟨"A", 200, 0.5, 2⟩, ⟨"B", 100, 0.5, 3⟩] 2
      = [⟨"A", 200, 0.5, 2⟩, ⟨"B", 100, 0.5, 3⟩] :=
  analyze_top_clients_spec.2 ⟨"A", 200, 0.5, 2⟩ ⟨"B", 100, 0.5, 3⟩ ⟨"C", 50, 0.5, 1⟩
    [⟨"C", 50, 0.5, 1⟩, ⟨"A", 200, 0.5, 2⟩, ⟨"B", 100, 0.5, 3⟩]
    (by decide) (by decide)
    (Or.inr (Or.inr (Or.inr (Or.inr (Or.inl rfl)))))

/-- C6 counterexample: two loaded rows with equal Revenue come back
from the top-clients sort in the opposite of their loaded order, so
the sort does not keep tied rows in stable as-loaded order. -/
theorem top_clients_tie_not_stable :
    ((⟨"Tie A", 100, 0.5, 1⟩ : ClientRow).revenue
        = (⟨"Tie B", 100, 0.4, 2⟩ : ClientRow).revenue) ∧
    topClientsRows [⟨"Tie A", 100, 0.5, 1⟩, ⟨"Tie B", 100, 0.4, 2⟩] 2
      = [⟨"Tie B", 100, 0.4, 2⟩, ⟨"Tie A", 100, 0.5, 1⟩] ∧
    topClientsRows [⟨"Tie A", 100, 0.5, 1⟩, ⟨"Tie B", 100, 0.4, 2⟩] 2
      ≠ [⟨"Tie A", 100, 0.5, 1⟩, ⟨"Tie B", 100, 0.4, 2⟩] := by
  decide

/-- A stable ascending sort leaves a list in which every key is the
same value unchanged. -/
theorem insertionSort_of_const_key {α : Type} (key : α → ℚ) (v : ℚ) :
    ∀ (l : List α), (∀ x ∈ l, key x = v) →
      List.insertionSort (keyLE key) l = l := by
  intro l
  induction l with
  | nil => intro _; rfl
  | cons a t ih =>
    intro h
    have ht : ∀ x ∈ t, key x = v := fun x hx => h x (by simp [hx])
    simp only [List.insertionSort]
    rw [ih ht]
    cases t with
    | nil => rfl
    | cons b t2 =>
      have hc : keyLE key a b := by
        show key a ≤ key b
        rw [h a (by simp), ht b (by simp)]
      simp only [List.orderedInsert]
      rw [if_pos hc]

/-- Inserting an element into a list passes only over elements with
strictly smaller keys, so for any key value v the subsequence of
elements whose key is v gains the inserted element at the front when
its key is v and is otherwise untouched.  This holds for any list, not
only sorted ones. -/
theorem orderedInsert_filter_key {α : Type} (key : α → ℚ) (v : ℚ) (a : α) :
    ∀ (l : List α),
      (List.orderedInsert (keyLE key) a l).filter (fun r => key r = v)
        = if key a = v then a :: l.filter (fun r => key r = v)
          else l.filter (fun r => key r = v) := by
  intro l
  induction l with
  | nil => simp [List.orderedInsert, List.filter_cons]
  | cons b t ih =>
    rw [List.orderedInsert]
    by_cases hab : keyLE key a b
    · rw [if_pos hab]
      by_cases hav : key a = v <;> simp [List.filter_cons, hav]
    · rw [if_neg hab]
      have hba : key b < key a := not_le.mp hab
      by_cases hav : key a = v
      · have hbv : key b ≠ v := hav ▸ ne_of_lt hba
        simp [List.filter_cons, hbv, ih, hav]
      · simp [List.filter_cons, ih, hav]

/-- Stability of the ascending insertion sort: for any key value v,
the subsequence of elements whose key is v is unchanged by the sort. -/
theorem insertionSort_filter_key {α : Type} (key : α → ℚ) (v : ℚ) :
    ∀ (l : List α),
      (List.insertionSort (keyLE key) l).filter (fun r => key r = v)
        = l.filter (fun r => key r = v) := by
  intro l
  induction l with
  | nil => rfl
  | cons a t ih =>
    simp only [List.insertionSort]
    rw [orderedInsert_filter_key key v a, ih]
    by_cases hav : key a = v <;> simp [List.filter_cons, hav]

/-- The descending sort preserves length. -/
theorem sort_values_length {α : Type} (key : α → ℚ) (l : List α) :
    (sort_values key l).length = l.length := by
  rw [sort_values, List.length_reverse, (List.perm_insertionSort _ l).length_eq]

/-- C6 amended: the descending sort is the reversal of a stable
ascending sort (pandas reverses the ascending argsort indexer when
ascending is False), so in every Client Breakdown table the rows tied
at any given Revenue value come back in the reverse of their as-loaded
relative order: for each revenue value v, the subsequence of the
sorted table at revenue v is the reversed subsequence of the loaded
table at revenue v.  In particular a table in which every row carries
the same Revenue comes back exactly reversed. -/
theorem top_clients_ties_reversed :
    (∀ (rows : List ClientRow) (v : ℚ),
        (topClientsRows rows rows.length).filter (fun r => r.revenue = v)
          = (rows.filter (fun r => r.revenue = v)).reverse) ∧
    (∀ (rows : List ClientRow) (v : ℚ), (∀ r ∈ rows, r.revenue = v) →
        topClientsRows rows rows.length = rows.reverse) := by
  constructor
  · intro rows v
    have htake : topClientsRows rows rows.length
        = sort_values (fun r : ClientRow => r.revenue) rows := by
      rw [topClientsRows, ← sort_values_length (fun r : ClientRow => r.revenue) rows,
        List.take_length]
    rw [htake, sort_values, List.filter_reverse,
      insertionSort_filter_key (fun r : ClientRow => r.revenue) v rows]
  · intro rows v h
    rw [topClientsRows, sort_values,
      insertionSort_of_const_key (fun r : ClientRow => r.revenue) v rows h,
      ← List.length_reverse, List.take_length]

/-- Witness for C6 amended: a three-row table mixing two tied rows
with an untied one has its tied pair reversed, and a two-row all-tied
table comes back exactly reversed. -/
theorem top_clients_ties_reversed_witness :
    ((topClientsRows [⟨"Tie C", 100, 0.5, 1⟩, ⟨"Mid", 200, 0.6, 3⟩,
          ⟨"Tie D", 100, 0.4, 2⟩] 3).filter (fun r => r.revenue = 100)
      = ([⟨"Tie C", 100, 0.5, 1⟩, ⟨"Tie D", 100, 0.4, 2⟩] : List ClientRow).reverse) ∧
    topClientsRows [⟨"Tie C", 100, 0.5, 1⟩, ⟨"Tie D", 100, 0.4, 2⟩] 2
      = [⟨"Tie D", 100, 0.4, 2⟩, ⟨"Tie C", 100, 0.5, 1⟩] :=
  ⟨top_clients_ties_reversed.1
      [⟨"Tie C", 100, 0.5, 1⟩, ⟨"Mid", 200, 0.6, 3⟩, ⟨"Tie D", 100, 0.4, 2⟩] 100,
    top_clients_ties_reversed.2
      [⟨"Tie C", 100, 0.5, 1⟩, ⟨"Tie D", 100, 0.4, 2⟩] 100 (by decide)⟩

/-- C7: on the spec Summary sheet (Total Revenue 1,000,000, Total Cost
600,000, current margin 0.40, projected revenue 1,100,000, projected
margin 0.4637) the summary reporter prints, up to column-alignment
spacing, the lines Revenue: $1,000,000.00, Gross Margin: 40.00% and
Improvement: +6.37% (the improvement being projected minus current
margin), and returns the scalars 1000000, 0.40 and 0.4637. -/
theorem summary_report_concrete :
    ((generate_summary_report (summaryOnly sampleSummary)).map (fun p => p.1.2)
        = some ⟨1000000, 0.40, 0.4637⟩) ∧
    "Revenue: $1,000,000.00" ∈ sampleSummaryNorm ∧
    "Gross Margin: 40.00%" ∈ sampleSummaryNorm ∧
    "Improvement: +6.37%" ∈ sampleSummaryNorm := by
  decide

/-- C1 counterexample: on a collection carrying the two margin metrics
the renderer reads, the renderer saves exactly four image files, not
five: the source contains four savefig calls. -/
theorem create_visualizations_not_five_files :
    ((create_visualizations (summaryOnly sampleSummary) "visualizations").map
        (fun p => p.1.files.length) = some 4) ∧
    ((create_visualizations (summaryOnly sampleSummary) "visualizations").map
        (fun p => p.1.files.length) ≠ some 5) := by
  decide

/-- Strings sharing a left factor are equal iff the right factors are. -/
theorem string_append_left_cancel (p s t : String) (h : p ++ s = p ++ t) :
    s = t := by
  have hd : (p ++ s).data = (p ++ t).data := congrArg String.data h
  rw [String.data_append, String.data_append] at hd
  exact String.ext (List.append_cancel_left hd)

/-- C1 amended: whenever the renderer succeeds it has created the
output directory (idempotently) and saved exactly four distinctly
numbered, fixed-named PNG files in it, in save order:
01_revenue_margin_analysis, 02_country_performance, 03_vendor_costs
and 04_carrier_analysis. -/
theorem create_visualizations_spec (d : Data) (dir : String)
    (p : VizOutput × Data) (h : create_visualizations d dir = some p) :
    p.1.dirCreated = true ∧
    p.1.files = [dir ++ "/01_revenue_margin_analysis.png",
                 dir ++ "/02_country_performance.png",
                 dir ++ "/03_vendor_costs.png",
                 dir ++ "/04_carrier_analysis.png"] ∧
    p.1.files.length = 4 ∧
    p.1.files.Nodup := by
  simp only [create_visualizations, Option.bind_eq_some] at h
  obtain ⟨cm, hcm, h⟩ := h
  obtain ⟨pm, hpm, h⟩ := h
  cases h
  refine ⟨rfl, by simp [vizFileNames], by simp [vizFileNames], ?_⟩
  exact List.Nodup.map (fun s t h2 => string_append_left_cancel dir s t h2)
    (by decide)

/-- Witness for C1 amended at the first sample collection. -/
theorem create_visualizations_spec_witness :
    vizSample.1.dirCreated = true ∧
    vizSample.1.files = ["visualizations" ++ "/01_revenue_margin_analysis.png",
      "visualizations" ++ "/02_country_performance.png",
      "visualizations" ++ "/03_vendor_costs.png",
      "visualizations" ++ "/04_carrier_analysis.png"] ∧
    vizSample.1.files.length = 4 ∧
    vizSample.1.files.Nodup :=
  create_visualizations_spec (summaryOnly sampleSummary) "visualizations"
    vizSample rfl

/-- C8: no reporting or rendering step mutates the loaded collection:
every step returns self.data exactly as the loader produced it
(sorting and filtering happen on fresh frames), so each operation
observes the collection the loader built. -/
theorem collection_never_mutated (d : Data) :
    ((analyze_top_clients d 10).2 = d) ∧
    ((identify_optimization_opportunities d).2 = d) ∧
    (∀ p, generate_summary_report d = some p → p.2 = d) ∧
    (∀ p, analyze_vendor_efficiency d = some p → p.2 = d) ∧
    (∀ dir p, create_visualizations d dir = some p → p.2 = d) ∧
    (∀ p, run_full_analysis d = some p → p.2 = d) :=
  ⟨rfl, rfl, fun p h => generate_summary_report_data d p h,
    fun p h => analyze_vendor_efficiency_data d p h,
    fun dir p h => create_visualizations_data d dir p h,
    fun p h => run_full_analysis_data d p h⟩

/-- Witness for C8: the vendor step on a concrete collection returns
the collection unchanged. -/
theorem collection_never_mutated_witness :
    analyze_vendor_efficiency (summaryOnly [])
      = some ((["", eqBar, "VENDOR COST ANALYSIS", eqBar], []), summaryOnly []) ∧
    (((["", eqBar, "VENDOR COST ANALYSIS", eqBar], ([] : List VendorRow)),
        summaryOnly []) : (List String × List VendorRow) × Data).2
      = summaryOnly [] :=
  ⟨rfl, (collection_never_mutated (summaryOnly [])).2.2.2.1 _ rfl⟩

/-- Whenever the orchestrator succeeds, its output is the banner, the
five step outputs in the fixed source order, the constant
recommendations block, and the closing lines. -/
theorem run_full_analysis_shape (d : Data) (p : List String × Data)
    (h : run_full_analysis d = some p) :
    p.1 = bannerLines ++ summaryOut d ++ topOut d ++ vendorOut d ++ optOut d
      ++ vizOut d ++ recommendationsBlock ++ closingLines := by
  simp only [run_full_analysis, Option.bind_eq_some] at h
  obtain ⟨s, hs, h⟩ := h
  obtain ⟨v, hv, h⟩ := h
  obtain ⟨z, hz, h⟩ := h
  cases h
  have hsd : s.2 = d := generate_summary_report_data d s hs
  rw [hsd] at hv ⊢
  have htc : (analyze_top_clients d 10).2 = d := rfl
  rw [htc] at hv
  have hvd : v.2 = d := analyze_vendor_efficiency_data d v hv
  rw [hvd] at hz ⊢
  have hoc : (identify_optimization_opportunities d).2 = d := rfl
  rw [hoc] at hz
  simp [summaryOut, topOut, vendorOut, optOut, vizOut, hs, hv, hz]

/-- C9: for every pair of loaded collections the orchestrator runs the
summary, top-clients, vendor, optimization and visualization steps in
that fixed order and then prints the same recommendations block for
both: the block is fixed text with no dependence on the data. -/
theorem orchestrator_fixed_recommendations (dA dB : Data)
    (pA pB : List String × Data)
    (hA : run_full_analysis dA = some pA) (hB : run_full_analysis dB = some pB) :
    (pA.1 = bannerLines ++ summaryOut dA ++ topOut dA ++ vendorOut dA ++ optOut dA
      ++ vizOut dA ++ recommendationsBlock ++ closingLines) ∧
    (pB.1 = bannerLines ++ summaryOut dB ++ topOut dB ++ vendorOut dB ++ optOut dB
      ++ vizOut dB ++ recommendationsBlock ++ closingLines) :=
  ⟨run_full_analysis_shape dA pA hA, run_full_analysis_shape dB pB hB⟩

/-- Witness for C9 at two different concrete collections. -/
theorem orchestrator_fixed_recommendations_witness :
    (runSampleA.1 = bannerLines ++ summaryOut (summaryOnly sampleSummary)
      ++ topOut (summaryOnly sampleSummary) ++ vendorOut (summaryOnly sampleSummary)
      ++ optOut (summaryOnly sampleSummary) ++ vizOut (summaryOnly sampleSummary)
      ++ recommendationsBlock ++ closingLines) ∧
    (runSampleB.1 = bannerLines ++ summaryOut (summaryOnly sampleSummaryB)
      ++ topOut (summaryOnly sampleSummaryB) ++ vendorOut (summaryOnly sampleSummaryB)
      ++ optOut (summaryOnly sampleSummaryB) ++ vizOut (summaryOnly sampleSummaryB)
      ++ recommendationsBlock ++ closingLines) :=
  orchestrator_fixed_recommendations (summaryOnly sampleSummary)
    (summaryOnly sampleSummaryB) runSampleA runSampleB rfl rfl

end Billing
